import Mathlib

/-!
Shallow embedding of the `punch` peer-to-peer port-forwarding tunnel
(Rust sources under `src/`), covering the wire codec, the server
connection pipeline (`Tunnel::on_connecting` / `Tunnel::accept` in
`src/core/server.rs`), the authorization-config mutators
(`src/utils/config.rs`) and the client-side UDP ingest
(`src/core/mod.rs`).

Bytes are modelled as `Nat` (with `< 256` hypotheses where byte-ness
matters), node identities as opaque `Nat`s, and the concurrent
`DashMap<NodeId, State>` as an association list with replace-on-insert.
Fallible paths return explicit outcome values; a Rust `panic!` is
modelled as `Option.none`.
-/

deriving instance DecidableEq for Except

namespace Punch

/-- `Protocol` from `src/core/mod.rs`: `Tcp = 0x0`, `Udp = 0x1`. -/
inductive Protocol where
  | tcp
  | udp
deriving DecidableEq, Repr

/-- The `#[repr(u8)]` discriminant used by `protocol as u8` when the
client sends the first handshake datagram (`src/core/client.rs:149`). -/
def Protocol.toByte : Protocol → Nat
  | .tcp => 0x0
  | .udp => 0x1

/-- `impl TryFrom<u8> for Protocol` (`src/core/mod.rs:26`): `0x0 → Tcp`,
`0x1 → Udp`, anything else is an error. -/
def Protocol.tryFromByte : Nat → Except String Protocol
  | 0x0 => .ok .tcp
  | 0x1 => .ok .udp
  | _ => .error "Invalid protocol byte. Use 0x0 for TCP or 0x1 for UDP."

/-- `impl Display for Protocol` (`src/core/mod.rs:50`): `"TCP"` / `"UDP"`. -/
def Protocol.display : Protocol → String
  | .tcp => "TCP"
  | .udp => "UDP"

/-- Rust `str::to_lowercase`, restricted to the ASCII alphabet the
protocol strings use: lowercase every character. -/
def to_lowercase (s : String) : String :=
  ⟨s.data.map Char.toLower⟩

/-- `impl FromStr for Protocol` (`src/core/mod.rs:38`): lowercase the
input, then accept exactly `"tcp"` and `"udp"`. -/
def Protocol.from_str (s : String) : Except String Protocol :=
  match to_lowercase s with
  | "tcp" => .ok .tcp
  | "udp" => .ok .udp
  | _ => .error "Invalid protocol. Use tcp or udp."

/-- `CloseReason` from `src/utils/error.rs:57`. -/
inductive CloseReason where
  | unauthorized
  | invalidPort
  | invalidProtocol
  | unknown
deriving DecidableEq, Repr

/-- `impl Into<VarInt> for &CloseReason` (`src/utils/error.rs:64`):
`Unauthorized ↦ 1`, `InvalidPort ↦ 2`, `InvalidProtocol ↦ 3`,
`Unknown ↦ u8::MAX = 255`. -/
def CloseReason.to_varint : CloseReason → Nat
  | .unauthorized => 0x01
  | .invalidPort => 0x02
  | .invalidProtocol => 0x03
  | .unknown => 255

/-- `impl From<VarInt> for CloseReason` (`src/utils/error.rs:75`).
The Rust `match` ends in a catch-all arm that panics with an
"Unknown CloseReason" message; the panic is modelled as `none`, so `from_varint v = none` means the
conversion panics at `v`. -/
def CloseReason.from_varint : Nat → Option CloseReason
  | 0x01 => some .unauthorized
  | 0x02 => some .invalidPort
  | 0x03 => some .invalidProtocol
  | _ => none

/-- Peer identity: `iroh::NodeId`, an opaque 32-byte public key,
modelled as an abstract `Nat` compared for equality. -/
abbrev NodeId := Nat

/-- `ServerSettings` from `src/utils/config.rs:108`: `max_connections`
(default `DEFAULT_MAX_CONNECTIONS`) and the inclusive port range
`allowed_ports : (u16, u16)`. -/
structure ServerSettings where
  max_connections : Nat
  allowed_ports : Nat × Nat
deriving DecidableEq, Repr

/-- `ServerConfig` from `src/utils/config.rs:100`: the authorized-key
list plus settings. -/
structure ServerConfig where
  authorized_keys : List NodeId
  settings : ServerSettings
deriving DecidableEq, Repr

/-- `AuthorizationManager::is_port_allowed` (`src/utils/config.rs:377`):
`port >= min && port <= max` against the loaded config field
`settings.allowed_ports`. -/
def is_port_allowed (config : ServerConfig) (port : Nat) : Bool :=
  let min := config.settings.allowed_ports.1
  let max := config.settings.allowed_ports.2
  decide (port ≥ min) && decide (port ≤ max)

/-- `AuthorizationManager::is_authorized` (`src/utils/config.rs:342`):
membership in the `authorized_keys` of the loaded config. -/
def is_authorized (config : ServerConfig) (node_id : NodeId) : Bool :=
  config.authorized_keys.contains node_id

/-- `AuthorizationManager::authorize` (`src/utils/config.rs:347`) acting
on the persisted `authorized_keys` list: push the key only when it is
not already present, then save. -/
def authorize (key : NodeId) (keys : List NodeId) : List NodeId :=
  if keys.contains key then keys else keys ++ [key]

/-- `AuthorizationManager::revoke` (`src/utils/config.rs:358`) acting on
the persisted `authorized_keys` list: `retain(|k| k != key)`, save only
when the length shrank, and return whether a change occurred. -/
def revoke (key : NodeId) (keys : List NodeId) : Bool × List NodeId :=
  let retained := keys.filter (fun k => k ≠ key)
  if retained.length < keys.length then (true, retained) else (false, keys)

/-- Per-peer `State` recorded by the server (`src/core/server.rs:52`). -/
structure State where
  requested_port : Nat
  requested_protocol : Protocol
deriving DecidableEq, Repr

/-- The server `DashMap<NodeId, State>` (`src/core/server.rs:48`),
modelled as an association list. -/
abbrev StateMap := List (NodeId × State)

/-- `DashMap::insert`: the new binding replaces any existing binding for
the same key. -/
def StateMap.insertEntry (m : StateMap) (k : NodeId) (v : State) : StateMap :=
  (k, v) :: m.filter (fun p => p.1 ≠ k)

/-- `DashMap::get`, as used by the stream-accept loop
(`src/core/server.rs:162`). -/
def StateMap.lookupEntry (m : StateMap) (k : NodeId) : Option State :=
  (m.find? (fun p => p.1 = k)).map Prod.snd

/-- Observable outcome of `Tunnel::on_connecting`
(`src/core/server.rs:58`): either the connection is handed over with the
decoded intent (`Ok(connecting)` after `states.insert`), or the future
returns `Err`. On the `Err` paths the handler may first have executed an
application close (`CloseReason::execute`); `rejected (some c)` records
that close code, `rejected none` means the future errored without
closing the connection with any application close code. -/
inductive ConnectOutcome where
  | accepted (intent : State)
  | rejected (closeCode : Option CloseReason)
deriving DecidableEq, Repr

/-- Full effect of one `Tunnel::on_connecting` call: the outcome, the
states map after the call, and how many handshake datagrams were read
from the connection (`read_datagram` calls that completed). -/
structure ConnectResult where
  outcome : ConnectOutcome
  states : StateMap
  reads : Nat
deriving DecidableEq, Repr

/-- `Tunnel::on_connecting` (`src/core/server.rs:58`–`135`), with the
stream of incoming handshake datagrams of the connection modelled as a list
of byte lists (an exhausted list makes `read_datagram` fail with a
transport error, i.e. `Err` with no application close).

Faithful order of checks:
1. `config.authorized_keys.contains(&remote_node_id)` — on failure,
   close `Unauthorized` and error (before any datagram is read);
2. first byte of the first datagram: missing byte errors with no close;
   `0x00 → Tcp`, `0x01 → Udp`, otherwise close `InvalidProtocol`;
3. second datagram as `u16::from_be_bytes` — a length other than 2
   closes `InvalidPort`;
4. `requested_port < 1024` closes `InvalidPort` (the configured
   `allowed_ports` range is not consulted here);
5. otherwise `states.insert(remote_node_id, state)` and `Ok`. -/
def onConnecting (config : ServerConfig) (states : StateMap)
    (remote_node_id : NodeId) (datagrams : List (List Nat)) : ConnectResult :=
  if ¬ config.authorized_keys.contains remote_node_id then
    ⟨.rejected (some .unauthorized), states, 0⟩
  else
    match datagrams with
    | [] => ⟨.rejected none, states, 0⟩
    | d1 :: rest =>
      match d1.head? with
      | none => ⟨.rejected none, states, 1⟩
      | some b =>
        match b with
        | 0x00 => onConnectingPort config states remote_node_id .tcp rest
        | 0x01 => onConnectingPort config states remote_node_id .udp rest
        | _ => ⟨.rejected (some .invalidProtocol), states, 1⟩
where
  /-- Continuation after the protocol byte decoded: read the port
  datagram and finish (`src/core/server.rs:98`–`133`). The config is
  not consulted past the authorization check: the port test is the
  hard-coded `requested_port < 1024`. -/
  onConnectingPort (_config : ServerConfig) (states : StateMap)
      (remote_node_id : NodeId) (requested_protocol : Protocol)
      (rest : List (List Nat)) : ConnectResult :=
    match rest with
    | [] => ⟨.rejected none, states, 1⟩
    | d2 :: _ =>
      match d2 with
      | [hi, lo] =>
        let requested_port := hi * 256 + lo
        if requested_port < 1024 then
          ⟨.rejected (some .invalidPort), states, 2⟩
        else
          ⟨.accepted ⟨requested_port, requested_protocol⟩,
            states.insertEntry remote_node_id ⟨requested_port, requested_protocol⟩, 2⟩
      | _ => ⟨.rejected (some .invalidPort), states, 2⟩

/-- Events driving one iteration of the stream-accept loop in
`Tunnel::accept` (`src/core/server.rs:147`–`227`): the connection
closing, an accepted unidirectional stream, an accepted bidirectional
stream, or an `Err` from `accept_uni`/`accept_bi`. -/
inductive StreamEvent where
  | closed
  | uni
  | bi
  | connError
deriving DecidableEq, Repr

/-- The stream-accept loop of `Tunnel::accept`
(`src/core/server.rs:147`–`227`). Each accepted stream spawns a handler
that does `states.get(&client_node_id)` (recorded in the returned list;
`none` is the "State not found" warning path); the loop exits on
`closed` or on an accept error. The loop never inserts into or removes
from the states map, so the map is threaded through unchanged. -/
def acceptSessionLoop (states : StateMap) (client_node_id : NodeId) :
    List StreamEvent → StateMap × List (Option State)
  | [] => (states, [])
  | .closed :: _ => (states, [])
  | .connError :: _ => (states, [])
  | .uni :: rest =>
    let r := acceptSessionLoop states client_node_id rest
    (r.1, states.lookupEntry client_node_id :: r.2)
  | .bi :: rest =>
    let r := acceptSessionLoop states client_node_id rest
    (r.1, states.lookupEntry client_node_id :: r.2)

/-- Server-level events: a new incoming session (running
`Tunnel::on_connecting` with the given handshake datagrams; if accepted
the session becomes active and `Router` then runs `Tunnel::accept` for
it), and the termination of the accept loop of an active session after the
given stream events. -/
inductive ServerEvent where
  | connect (peer : NodeId) (datagrams : List (List Nat))
  | terminate (peer : NodeId) (streamEvents : List StreamEvent)
deriving DecidableEq, Repr

/-- Whole-server state: the shared `DashMap` of per-peer `State`s plus
the multiset of sessions currently being handled (`active`). The length
of `active` is the spec-level `ActiveConnectionCount`: sessions whose
handler is running. No counter exists in the code; `active` is ghost
instrumentation that tracks which accepted sessions have not yet
terminated. -/
structure ServerState where
  states : StateMap
  active : List NodeId
deriving DecidableEq, Repr

/-- One server step. `connect` runs `Tunnel::on_connecting`; an accepted
session joins `active` (its `Tunnel::accept` handler starts). Nothing in
`on_connecting` inspects `active` or `settings.max_connections`.
`terminate` runs the accept loop of the session to completion and removes one
occurrence of the peer from `active`; the loop leaves the map as it
found it. -/
def serverStep (config : ServerConfig) (s : ServerState) : ServerEvent → ServerState
  | .connect peer datagrams =>
    let r := onConnecting config s.states peer datagrams
    match r.outcome with
    | .accepted _ => ⟨r.states, peer :: s.active⟩
    | .rejected _ => ⟨r.states, s.active⟩
  | .terminate peer streamEvents =>
    ⟨(acceptSessionLoop s.states peer streamEvents).1, s.active.erase peer⟩

/-- A server run from the empty initial state (`DashMap::new`, no active
sessions), folding `serverStep` over the event list. -/
def runServer (config : ServerConfig) (events : List ServerEvent) : ServerState :=
  events.foldl (serverStep config) ⟨[], []⟩

/-- One received-packet iteration of
`TunnelConnection::handle_udp_socket` (`src/core/mod.rs:96`–`116`): a
packet of `size` bytes whose size exceeds the
`datagram_send_buffer_space()` of the transport is dropped with a warning (`continue`,
nothing written); otherwise `write_all(&buf[..size])` appends the whole
payload to the unidirectional tunnel stream as one write. `writes` is
the list of writes issued so far. -/
def handle_udp_packet (datagramSendBufferSpace : Nat)
    (writes : List (List Nat)) (packet : List Nat) : List (List Nat) :=
  if packet.length > datagramSendBufferSpace then writes
  else writes ++ [packet]

/-! Concrete configurations used by witnesses and counterexamples. -/

/-- A server config with the default settings of `src/utils/constants.rs`
(`max_connections = 100`, `allowed_ports = (1024, 65535)`) and one
authorized peer, identity `7`. -/
def exampleConfig : ServerConfig := ⟨[7], ⟨100, (1024, 65535)⟩⟩

/-- A server config whose `allowed_ports` is narrowed to `(2000, 3000)`,
authorizing peer `7`. -/
def narrowConfig : ServerConfig := ⟨[7], ⟨100, (2000, 3000)⟩⟩

/-- A server config with `max_connections = 1`, authorizing peers `7`
and `8`. -/
def capacityOneConfig : ServerConfig := ⟨[7, 8], ⟨1, (1024, 65535)⟩⟩

/-! Helper lemmas about the embedded operations. -/

/-- `authorize` leaves the list unchanged when the key is already
present, hence applying it twice equals applying it once. -/
theorem authorize_twice (key : NodeId) (keys : List NodeId) :
    authorize key (authorize key keys) = authorize key keys := by
  by_cases hc : key ∈ keys
  · simp [authorize, hc]
  · simp [authorize, hc]

/-- `revoke` reports a change whenever the key was present. -/
theorem revoke_true_of_mem (key : NodeId) (keys : List NodeId)
    (h : key ∈ keys) : (revoke key keys).1 = true := by
  have hlt : (keys.filter (fun k => decide (k ≠ key))).length < keys.length :=
    List.length_filter_lt_length_iff_exists.mpr ⟨key, h, by simp⟩
  simp only [revoke]
  rw [if_pos hlt]

/-- Revoking a key from a list it has already been revoked from reports
no change. -/
theorem revoke_again_false (key : NodeId) (keys : List NodeId) :
    (revoke key ((revoke key keys).2)).1 = false := by
  by_cases hlt : (keys.filter (fun k => decide (k ≠ key))).length < keys.length
  · simp only [revoke, if_pos hlt]
    rw [if_neg]
    simp [List.filter_filter]
  · simp only [revoke, if_neg hlt]

/-- Looking up a key right after inserting it yields the inserted value
(`DashMap::insert` then `DashMap::get`). -/
theorem lookupEntry_insertEntry (m : StateMap) (k : NodeId) (v : State) :
    (m.insertEntry k v).lookupEntry k = some v := by
  simp [StateMap.insertEntry, StateMap.lookupEntry, List.find?]

/-- The stream-accept loop of `Tunnel::accept` leaves the states map
exactly as it found it: no branch inserts into or removes from the map. -/
theorem acceptSessionLoop_preserves_states (states : StateMap) (id : NodeId)
    (evs : List StreamEvent) : (acceptSessionLoop states id evs).1 = states := by
  induction evs with
  | nil => rfl
  | cons e rest ih => cases e <;> simp [acceptSessionLoop, ih]

/-- An authorized peer with a well-formed handshake (`[p]` then
`[hi, lo]`, protocol byte decoding to `proto`, decoded port at least
1024) is accepted: the intent `⟨(hi<<8)|lo, proto⟩` is inserted for the
peer and both datagrams were read. -/
theorem onConnecting_accepts (config : ServerConfig) (states : StateMap)
    (peer : NodeId) (p : Nat) (proto : Protocol) (hi lo : Nat)
    (rest : List (List Nat))
    (hauth : config.authorized_keys.contains peer = true)
    (hdec : Protocol.tryFromByte p = .ok proto)
    (hport : 1024 ≤ hi * 256 + lo) :
    onConnecting config states peer ([p] :: [hi, lo] :: rest) =
      ⟨.accepted ⟨hi * 256 + lo, proto⟩,
       states.insertEntry peer ⟨hi * 256 + lo, proto⟩, 2⟩ := by
  have hmem : peer ∈ config.authorized_keys := by simpa using hauth
  have hp : p = 0 ∧ proto = .tcp ∨ p = 1 ∧ proto = .udp := by
    match p, hdec with
    | 0, h => exact Or.inl ⟨rfl, by cases h; rfl⟩
    | 1, h => exact Or.inr ⟨rfl, by cases h; rfl⟩
  rcases hp with ⟨rfl, rfl⟩ | ⟨rfl, rfl⟩ <;>
    simp [onConnecting, onConnecting.onConnectingPort, hmem, Nat.not_lt.mpr hport]

/-- A well-formed handshake whose decoded port is below 1024 is closed
with `InvalidPort`; the states map is unchanged. -/
theorem onConnecting_low_port (config : ServerConfig) (states : StateMap)
    (peer : NodeId) (p : Nat) (proto : Protocol) (hi lo : Nat)
    (rest : List (List Nat))
    (hauth : config.authorized_keys.contains peer = true)
    (hdec : Protocol.tryFromByte p = .ok proto)
    (hport : hi * 256 + lo < 1024) :
    onConnecting config states peer ([p] :: [hi, lo] :: rest) =
      ⟨.rejected (some .invalidPort), states, 2⟩ := by
  have hmem : peer ∈ config.authorized_keys := by simpa using hauth
  have hp : p = 0 ∨ p = 1 := by
    match p, hdec with
    | 0, _ => exact Or.inl rfl
    | 1, _ => exact Or.inr rfl
  rcases hp with rfl | rfl <;>
    simp [onConnecting, onConnecting.onConnectingPort, hmem, hport]

/-- An empty first handshake datagram makes `on_connecting` error with
no application close code executed. -/
theorem onConnecting_empty_first (config : ServerConfig) (states : StateMap)
    (peer : NodeId) (rest : List (List Nat))
    (hauth : config.authorized_keys.contains peer = true) :
    onConnecting config states peer ([] :: rest) = ⟨.rejected none, states, 1⟩ := by
  have hmem : peer ∈ config.authorized_keys := by simpa using hauth
  simp [onConnecting, hmem]

/-- A protocol byte outside `{0, 1}` closes with `InvalidProtocol`. -/
theorem onConnecting_bad_protocol (config : ServerConfig) (states : StateMap)
    (peer : NodeId) (b : Nat) (tail : List Nat) (rest : List (List Nat))
    (hauth : config.authorized_keys.contains peer = true)
    (hb0 : b ≠ 0) (hb1 : b ≠ 1) :
    onConnecting config states peer ((b :: tail) :: rest) =
      ⟨.rejected (some .invalidProtocol), states, 1⟩ := by
  have hmem : peer ∈ config.authorized_keys := by simpa using hauth
  obtain ⟨n, rfl⟩ : ∃ n, b = n + 2 := ⟨b - 2, by omega⟩
  simp [onConnecting, hmem]

/-- A second handshake datagram that is not exactly two bytes closes
with `InvalidPort` (`u16::from_be_bytes` conversion failure). -/
theorem onConnecting_bad_port_bytes (config : ServerConfig) (states : StateMap)
    (peer : NodeId) (d2 : List Nat) (rest : List (List Nat))
    (hauth : config.authorized_keys.contains peer = true)
    (hlen : d2.length ≠ 2) :
    onConnecting config states peer ([0] :: d2 :: rest) =
      ⟨.rejected (some .invalidPort), states, 2⟩ := by
  have hmem : peer ∈ config.authorized_keys := by simpa using hauth
  match d2, hlen with
  | [], _ => simp [onConnecting, onConnecting.onConnectingPort, hmem]
  | [a], _ => simp [onConnecting, onConnecting.onConnectingPort, hmem]
  | a :: b :: c :: t, _ => simp [onConnecting, onConnecting.onConnectingPort, hmem]
  | [a, b], h => exact absurd rfl h

/-- A `connect` event with a valid handshake makes the session active
and records its intent, whatever the current active count. -/
theorem serverStep_connect_accepted (config : ServerConfig) (states : StateMap)
    (active : List NodeId) (peer : NodeId) (p : Nat) (proto : Protocol)
    (hi lo : Nat) (rest : List (List Nat))
    (hauth : config.authorized_keys.contains peer = true)
    (hdec : Protocol.tryFromByte p = .ok proto)
    (hport : 1024 ≤ hi * 256 + lo) :
    serverStep config ⟨states, active⟩ (.connect peer ([p] :: [hi, lo] :: rest)) =
      ⟨states.insertEntry peer ⟨hi * 256 + lo, proto⟩, peer :: active⟩ := by
  simp [serverStep,
    onConnecting_accepts config states peer p proto hi lo rest hauth hdec hport]

/-- A `terminate` event removes the session from the active multiset and
leaves the states map untouched. -/
theorem serverStep_terminate (config : ServerConfig) (states : StateMap)
    (active : List NodeId) (peer : NodeId) (evs : List StreamEvent) :
    serverStep config ⟨states, active⟩ (.terminate peer evs) =
      ⟨states, active.erase peer⟩ := by
  simp [serverStep, acceptSessionLoop_preserves_states]

/-! Claim theorems. -/

/-- Claim C1 (amended): the accept path closes a session with
`InvalidPort` and records no intent exactly when the requested port is
below 1024; `Tunnel::on_connecting` hard-codes this bound and never
consults the configured `allowed_ports` range. This theorem proves the
surviving half: an authorized peer requesting a port below 1024 is
closed with `InvalidPort`, the states map is unchanged, and no intent is
recorded. -/
theorem low_port_rejected_invalid_port (config : ServerConfig)
    (states : StateMap) (peer : NodeId) (p : Nat) (proto : Protocol)
    (hi lo : Nat) (rest : List (List Nat))
    (hauth : config.authorized_keys.contains peer = true)
    (hdec : Protocol.tryFromByte p = .ok proto)
    (hport : hi * 256 + lo < 1024) :
    onConnecting config states peer ([p] :: [hi, lo] :: rest) =
      ⟨.rejected (some .invalidPort), states, 2⟩ :=
  onConnecting_low_port config states peer p proto hi lo rest hauth hdec hport

/-- Witness for `low_port_rejected_invalid_port`: port 1000 requested by
authorized peer 7 is closed with `InvalidPort` and no intent recorded. -/
theorem low_port_rejected_invalid_port_witness :
    onConnecting exampleConfig [] 7 [[0], [3, 232]] =
      ⟨.rejected (some .invalidPort), [], 2⟩ :=
  low_port_rejected_invalid_port exampleConfig [] 7 0 .tcp 3 232 []
    (by decide) (by decide) (by decide)

/-- Counterexample to claim C1 as stated: with `allowed_ports`
configured to `(2000, 3000)`, the port 1500 is outside the configured
range (`is_port_allowed` is false), yet the server does not close with
`InvalidPort` — it accepts the session and records a `PeerIntent` for
the peer. -/
theorem allowed_ports_range_not_enforced :
    is_port_allowed narrowConfig 1500 = false ∧
    (onConnecting narrowConfig [] 7 [[0], [5, 220]]).outcome =
      ConnectOutcome.accepted ⟨1500, .tcp⟩ ∧
    (onConnecting narrowConfig [] 7 [[0], [5, 220]]).states.lookupEntry 7 =
      some ⟨1500, .tcp⟩ := by decide

/-- Claim C2 (amended): the server performs no admission control on the
connection count. An accepted session increments the number of sessions
being handled regardless of `max_connections`; in particular, when the
active count already reached `max_connections`, the new count strictly
exceeds it. -/
theorem connect_admission_ignores_max_connections (config : ServerConfig)
    (states : StateMap) (active : List NodeId) (peer : NodeId) (p : Nat)
    (proto : Protocol) (hi lo : Nat) (rest : List (List Nat))
    (hauth : config.authorized_keys.contains peer = true)
    (hdec : Protocol.tryFromByte p = .ok proto)
    (hport : 1024 ≤ hi * 256 + lo) :
    (serverStep config ⟨states, active⟩
        (.connect peer ([p] :: [hi, lo] :: rest))).active.length =
      active.length + 1 ∧
    (config.settings.max_connections ≤ active.length →
      config.settings.max_connections <
        (serverStep config ⟨states, active⟩
          (.connect peer ([p] :: [hi, lo] :: rest))).active.length) := by
  rw [serverStep_connect_accepted config states active peer p proto hi lo rest
    hauth hdec hport]
  exact ⟨rfl, fun h => by simpa using Nat.lt_succ_of_le h⟩

/-- Witness for `connect_admission_ignores_max_connections`: with
`max_connections = 1` and one session already active, a second valid
session is still accepted and the active count 2 exceeds the limit. -/
theorem connect_admission_ignores_max_connections_witness :
    (serverStep capacityOneConfig ⟨[], [7]⟩
        (.connect 8 [[1], [31, 144]])).active.length = 2 ∧
    capacityOneConfig.settings.max_connections <
      (serverStep capacityOneConfig ⟨[], [7]⟩
        (.connect 8 [[1], [31, 144]])).active.length :=
  ⟨(connect_admission_ignores_max_connections capacityOneConfig [] [7] 8 1
      .udp 31 144 [] (by decide) (by decide) (by decide)).1,
   (connect_admission_ignores_max_connections capacityOneConfig [] [7] 8 1
      .udp 31 144 [] (by decide) (by decide) (by decide)).2 (by decide)⟩

/-- Counterexample to claim C2 as stated: with `max_connections = 1`,
two authorized sessions connect; the second is not refused (its
handshake is accepted and its intent recorded) and the number of
sessions being handled reaches 2, exceeding the limit. -/
theorem max_connections_exceeded_by_trace :
    capacityOneConfig.settings.max_connections = 1 ∧
    (runServer capacityOneConfig
      [.connect 7 [[0], [31, 144]], .connect 8 [[1], [31, 144]]]).active.length = 2 ∧
    (onConnecting capacityOneConfig
      (runServer capacityOneConfig [.connect 7 [[0], [31, 144]]]).states
      8 [[1], [31, 144]]).outcome = ConnectOutcome.accepted ⟨8080, .udp⟩ := by decide

/-- Claim C3 (amended): after a session terminates, the number of
sessions being handled returns to its pre-session value, but the intent
map still holds the entry recorded for that peer identity — the accept
loop never removes it; it is only overwritten by a later session from
the same identity. -/
theorem terminate_restores_count_but_keeps_intent (config : ServerConfig)
    (states : StateMap) (active : List NodeId) (peer : NodeId) (p : Nat)
    (proto : Protocol) (hi lo : Nat) (rest : List (List Nat))
    (streamEvents : List StreamEvent)
    (hauth : config.authorized_keys.contains peer = true)
    (hdec : Protocol.tryFromByte p = .ok proto)
    (hport : 1024 ≤ hi * 256 + lo) :
    (serverStep config
        (serverStep config ⟨states, active⟩
          (.connect peer ([p] :: [hi, lo] :: rest)))
        (.terminate peer streamEvents)).active = active ∧
    (serverStep config
        (serverStep config ⟨states, active⟩
          (.connect peer ([p] :: [hi, lo] :: rest)))
        (.terminate peer streamEvents)).states.lookupEntry peer =
      some ⟨hi * 256 + lo, proto⟩ := by
  rw [serverStep_connect_accepted config states active peer p proto hi lo rest
    hauth hdec hport, serverStep_terminate]
  exact ⟨List.erase_cons_head peer active, lookupEntry_insertEntry states peer _⟩

/-- Witness for `terminate_restores_count_but_keeps_intent`: a session
from peer 7 requesting TCP port 8080 connects and terminates; the active
list is back to empty while the intent entry is still present. -/
theorem terminate_restores_count_but_keeps_intent_witness :
    (serverStep exampleConfig
        (serverStep exampleConfig ⟨[], []⟩ (.connect 7 [[0], [31, 144]]))
        (.terminate 7 [.bi, .closed])).active = [] ∧
    (serverStep exampleConfig
        (serverStep exampleConfig ⟨[], []⟩ (.connect 7 [[0], [31, 144]]))
        (.terminate 7 [.bi, .closed])).states.lookupEntry 7 =
      some ⟨8080, .tcp⟩ :=
  terminate_restores_count_but_keeps_intent exampleConfig [] [] 7 0 .tcp 31 144
    [] [.bi, .closed] (by decide) (by decide) (by decide)

/-- Counterexample to claim C3 as stated: peer 7 completes a handshake
and the session then terminates; afterwards the intent map still
contains the entry for peer 7 (the claim requires it to be gone). -/
theorem intent_survives_session_termination :
    (runServer exampleConfig
      [.connect 7 [[0], [31, 144]], .terminate 7 [.closed]]).active = [] ∧
    (runServer exampleConfig
      [.connect 7 [[0], [31, 144]], .terminate 7 [.closed]]).states.lookupEntry 7 =
      some ⟨8080, .tcp⟩ := by decide

/-- Claim C4 (code bug): the translation from transport close code to
`CloseReason` maps 1, 2, 3 to the three named codes, but it is not total
— on every other value, including 255, the sentinel the code itself
emits for `Unknown`, the Rust `From<VarInt> for CloseReason` impl
panics (modelled by `from_varint` returning `none`) instead of yielding
`Unknown` as the claim requires. -/
theorem close_code_translation_partial :
    CloseReason.from_varint 1 = some .unauthorized ∧
    CloseReason.from_varint 2 = some .invalidPort ∧
    CloseReason.from_varint 3 = some .invalidProtocol ∧
    CloseReason.from_varint 4 = none ∧
    CloseReason.from_varint 255 = none ∧
    CloseReason.from_varint (CloseReason.to_varint .unknown) = none := by decide

/-- Claim C5 (amended): for every handshake `[p, hi, lo]` with
`p ∈ {0, 1}` from an authorized peer, when the decoded port
`(hi<<8)|lo` is at least 1024 the server records a `PeerIntent` keyed by
the peer with `protocol = decode(p)` and `port = (hi<<8)|lo`; when the
decoded port is below 1024 it instead closes with `InvalidPort` and
records no intent. -/
theorem valid_handshake_records_intent (config : ServerConfig)
    (states : StateMap) (peer : NodeId) (p : Nat) (proto : Protocol)
    (hi lo : Nat) (rest : List (List Nat))
    (hauth : config.authorized_keys.contains peer = true)
    (hdec : Protocol.tryFromByte p = .ok proto) :
    (1024 ≤ hi * 256 + lo →
      onConnecting config states peer ([p] :: [hi, lo] :: rest) =
        ⟨.accepted ⟨hi * 256 + lo, proto⟩,
         states.insertEntry peer ⟨hi * 256 + lo, proto⟩, 2⟩) ∧
    (hi * 256 + lo < 1024 →
      onConnecting config states peer ([p] :: [hi, lo] :: rest) =
        ⟨.rejected (some .invalidPort), states, 2⟩) :=
  ⟨onConnecting_accepts config states peer p proto hi lo rest hauth hdec,
   onConnecting_low_port config states peer p proto hi lo rest hauth hdec⟩

/-- Witness for `valid_handshake_records_intent`: handshake
`[1, 31, 144]` (UDP, port 8080) records the intent `⟨8080, Udp⟩`;
handshake `[1, 0, 100]` (UDP, port 100) is closed with `InvalidPort`. -/
theorem valid_handshake_records_intent_witness :
    onConnecting exampleConfig [] 7 [[1], [31, 144]] =
      ⟨.accepted ⟨8080, .udp⟩, [(7, ⟨8080, .udp⟩)], 2⟩ ∧
    onConnecting exampleConfig [] 7 [[1], [0, 100]] =
      ⟨.rejected (some .invalidPort), [], 2⟩ :=
  ⟨(valid_handshake_records_intent exampleConfig [] 7 1 .udp 31 144 []
      (by decide) (by decide)).1 (by decide),
   (valid_handshake_records_intent exampleConfig [] 7 1 .udp 0 100 []
      (by decide) (by decide)).2 (by decide)⟩

/-- Counterexample to claim C5 as stated: the handshake `[0, 0, 53]`
(TCP, port 53) comes from an authorized peer with `p ∈ {0, 1}`, yet the
server records no `PeerIntent` — it closes with `InvalidPort` because
the decoded port is below 1024. -/
theorem handshake_low_port_no_intent :
    (onConnecting exampleConfig [] 7 [[0], [0, 53]]).outcome =
      ConnectOutcome.rejected (some .invalidPort) ∧
    (onConnecting exampleConfig [] 7 [[0], [0, 53]]).states.lookupEntry 7 =
      none := by decide

/-- Claim C6 (confirmed): a session from a peer identity not contained
in `authorized_keys` is closed with `Unauthorized` with zero handshake
datagrams read (the check precedes every `read_datagram` call,
whatever datagrams arrive), and the states map is unchanged, so no
intent is recorded for that peer. -/
theorem unauthorized_rejected_before_any_read (config : ServerConfig)
    (states : StateMap) (peer : NodeId) (datagrams : List (List Nat))
    (h : config.authorized_keys.contains peer = false) :
    onConnecting config states peer datagrams =
      ⟨.rejected (some .unauthorized), states, 0⟩ := by
  have hmem : peer ∉ config.authorized_keys := by simpa using h
  simp [onConnecting, hmem]

/-- Witness for `unauthorized_rejected_before_any_read`: peer 9 is not
authorized by `exampleConfig`; its session is closed `Unauthorized`
having read nothing, even though valid handshake datagrams were sent. -/
theorem unauthorized_rejected_before_any_read_witness :
    onConnecting exampleConfig [] 9 [[0], [31, 144]] =
      ⟨.rejected (some .unauthorized), [], 0⟩ :=
  unauthorized_rejected_before_any_read exampleConfig [] 9 [[0], [31, 144]]
    (by decide)

/-- Claim C7 (confirmed): round-trip laws of the wire codec — decoding
the encoded protocol byte is the identity, decoding the displayed
protocol string is the identity up to case (display is uppercase,
parsing lowercases first), and varint round-trips hold for the three
named close codes. -/
theorem codec_round_trips :
    (∀ x : Protocol, Protocol.tryFromByte (Protocol.toByte x) = .ok x) ∧
    (∀ x : Protocol, Protocol.from_str (Protocol.display x) = .ok x) ∧
    CloseReason.from_varint (CloseReason.to_varint .unauthorized) =
      some .unauthorized ∧
    CloseReason.from_varint (CloseReason.to_varint .invalidPort) =
      some .invalidPort ∧
    CloseReason.from_varint (CloseReason.to_varint .invalidProtocol) =
      some .invalidProtocol := by
  refine ⟨fun x => ?_, fun x => ?_, by decide, by decide, by decide⟩
  · cases x <;> decide
  · cases x <;> decide

/-- Claim C8 (confirmed): a UDP packet received on the local socket is
dropped (nothing written to the tunnel) when its size exceeds the
transport datagram budget, and is appended to the unidirectional stream
as a single write of exactly its payload bytes otherwise. -/
theorem udp_ingest_respects_mtu (datagramSendBufferSpace : Nat)
    (writes : List (List Nat)) (packet : List Nat) :
    (packet.length > datagramSendBufferSpace →
      handle_udp_packet datagramSendBufferSpace writes packet = writes) ∧
    (packet.length ≤ datagramSendBufferSpace →
      handle_udp_packet datagramSendBufferSpace writes packet =
        writes ++ [packet]) := by
  constructor <;> intro h <;> simp [handle_udp_packet, h]

/-- Witness for `udp_ingest_respects_mtu`: a 3-byte packet is forwarded
when the budget is 5 and dropped when the budget is 2. -/
theorem udp_ingest_respects_mtu_witness :
    handle_udp_packet 5 [] [10, 11, 12] = [[10, 11, 12]] ∧
    handle_udp_packet 2 [] [10, 11, 12] = [] :=
  ⟨(udp_ingest_respects_mtu 5 [] [10, 11, 12]).2 (by decide),
   (udp_ingest_respects_mtu 2 [] [10, 11, 12]).1 (by decide)⟩

/-- Claim C9 (confirmed): the authorized-key mutators have set semantics
on the persisted list — for every key and every persisted list,
`authorize` applied twice equals `authorize` applied once (in particular
authorizing an absent key twice appends no duplicate entry), `revoke`
returns true the first time a present key is revoked, and false on every
later call. -/
theorem auth_mutators_set_semantics (key : NodeId) (keys : List NodeId) :
    authorize key (authorize key keys) = authorize key keys ∧
    (key ∈ keys → (revoke key keys).1 = true) ∧
    (revoke key ((revoke key keys).2)).1 = false :=
  ⟨authorize_twice key keys, fun h => revoke_true_of_mem key keys h,
   revoke_again_false key keys⟩

/-- Witness for `auth_mutators_set_semantics`: authorizing the absent
key 5 twice over `[9]` appends it only once (push branch exercised),
revoking the present key 5 from `[5, 9]` reports a change, and revoking
it again from the result reports none. -/
theorem auth_mutators_set_semantics_witness :
    authorize 5 (authorize 5 [9]) = authorize 5 [9] ∧
    (revoke 5 [5, 9]).1 = true ∧
    (revoke 5 ((revoke 5 [5, 9]).2)).1 = false :=
  ⟨(auth_mutators_set_semantics 5 [9]).1,
   (auth_mutators_set_semantics 5 [5, 9]).2.1 (by decide),
   (auth_mutators_set_semantics 5 [5, 9]).2.2⟩

/-- Claim C10 (confirmed): an empty first handshake datagram from an
authorized peer makes the server error without executing any
application close (`rejected none` — the client observes no known close
code), unlike the invalid-protocol-byte, malformed-port-bytes and
out-of-range-port paths, which close with `InvalidProtocol`,
`InvalidPort` and `InvalidPort` respectively before erroring. -/
theorem empty_first_datagram_errors_without_close (config : ServerConfig)
    (states : StateMap) (peer : NodeId)
    (hauth : config.authorized_keys.contains peer = true) :
    (∀ rest : List (List Nat),
      onConnecting config states peer ([] :: rest) =
        ⟨.rejected none, states, 1⟩) ∧
    (∀ (b : Nat) (tail2 : List Nat) (rest : List (List Nat)),
      b ≠ 0 → b ≠ 1 →
      onConnecting config states peer ((b :: tail2) :: rest) =
        ⟨.rejected (some .invalidProtocol), states, 1⟩) ∧
    (∀ (d2 : List Nat) (rest : List (List Nat)), d2.length ≠ 2 →
      onConnecting config states peer ([0] :: d2 :: rest) =
        ⟨.rejected (some .invalidPort), states, 2⟩) ∧
    (∀ (hi lo : Nat) (rest : List (List Nat)), hi * 256 + lo < 1024 →
      onConnecting config states peer ([0] :: [hi, lo] :: rest) =
        ⟨.rejected (some .invalidPort), states, 2⟩) :=
  ⟨fun rest => onConnecting_empty_first config states peer rest hauth,
   fun b tail2 rest hb0 hb1 =>
     onConnecting_bad_protocol config states peer b tail2 rest hauth hb0 hb1,
   fun d2 rest hlen =>
     onConnecting_bad_port_bytes config states peer d2 rest hauth hlen,
   fun hi lo rest hport =>
     onConnecting_low_port config states peer 0 .tcp hi lo rest hauth
       (by decide) hport⟩

/-- Witness for `empty_first_datagram_errors_without_close`: the empty
datagram errors with no close code, while a bad protocol byte, a
three-byte port datagram and a low port each close with their code. -/
theorem empty_first_datagram_errors_without_close_witness :
    onConnecting exampleConfig [] 7 [[]] = ⟨.rejected none, [], 1⟩ ∧
    onConnecting exampleConfig [] 7 [[5], [31, 144]] =
      ⟨.rejected (some .invalidProtocol), [], 1⟩ ∧
    onConnecting exampleConfig [] 7 [[0], [1, 2, 3]] =
      ⟨.rejected (some .invalidPort), [], 2⟩ ∧
    onConnecting exampleConfig [] 7 [[0], [0, 99]] =
      ⟨.rejected (some .invalidPort), [], 2⟩ :=
  ⟨(empty_first_datagram_errors_without_close exampleConfig [] 7
      (by decide)).1 [],
   (empty_first_datagram_errors_without_close exampleConfig [] 7
      (by decide)).2.1 5 [] [[31, 144]] (by decide) (by decide),
   (empty_first_datagram_errors_without_close exampleConfig [] 7
      (by decide)).2.2.1 [1, 2, 3] [] (by decide),
   (empty_first_datagram_errors_without_close exampleConfig [] 7
      (by decide)).2.2.2 0 99 [] (by decide)⟩

end Punch
